import Mathlib

/- Shallow embedding of the two utility scripts of the strands-agents docs
repository: the API-reference generator (generate_python_api_docs.py) and the
frontmatter-title checker (tests/test_frontmatter_titles.py).  Python strings
are modelled as Lean strings, but the string primitives the scripts use
(strip, split, join, startswith, replace, lower, title, pathlib stem/suffix)
are re-implemented over the underlying character list so that every
definition evaluates by kernel reduction. -/

namespace StrandsDocs

/-! ### Python string primitives -/

/-- Whitespace characters removed by Python `str.strip()` (ASCII range). -/
def pySpaceChar (c : Char) : Bool :=
  c = ' ' || c = '\t' || c = '\n' || c = '\r' || c = '\x0b' || c = '\x0c'

/-- Python `s.strip()`. -/
def pyStrip (s : String) : String :=
  String.mk (((s.data.dropWhile pySpaceChar).reverse.dropWhile pySpaceChar).reverse)

def splitCharAux (sep : Char) : List Char → List Char → List (List Char)
  | [], cur => [cur.reverse]
  | c :: cs, cur =>
    if c = sep then cur.reverse :: splitCharAux sep cs []
    else splitCharAux sep cs (c :: cur)

/-- Python `s.split(sep)` for a one-character separator (the scripts only
split on a newline, a dot or a slash). -/
def pySplit (s : String) (sep : Char) : List String :=
  (splitCharAux sep s.data []).map String.mk

def charsStart : List Char → List Char → Bool
  | _, [] => true
  | [], _ :: _ => false
  | a :: as, b :: bs => a = b && charsStart as bs

/-- Python `s.startswith(pat)`. -/
def pyStarts (s pat : String) : Bool := charsStart s.data pat.data

/-- Python `s.replace(a, b)` for one-character `a` and `b` (the scripts only
replace `-`, `_` and `/`). -/
def pyReplaceChar (s : String) (a b : Char) : String :=
  String.mk (s.data.map (fun c => if c = a then b else c))

def charLower (c : Char) : Char :=
  if 'A' ≤ c && c ≤ 'Z' then Char.ofNat (c.toNat + 32) else c

def charUpper (c : Char) : Char :=
  if 'a' ≤ c && c ≤ 'z' then Char.ofNat (c.toNat - 32) else c

/-- Python `s.lower()` (ASCII range). -/
def pyLower (s : String) : String := String.mk (s.data.map charLower)

def pyTitleAux : List Char → Bool → List Char
  | [], _ => []
  | c :: cs, prevCased =>
    if c.isAlpha then
      (if prevCased then charLower c else charUpper c) :: pyTitleAux cs true
    else c :: pyTitleAux cs false

/-- Python `s.title()` (ASCII range): the first letter of every run of
letters is uppercased, the rest of the run is lowercased. -/
def pyTitle (s : String) : String := String.mk (pyTitleAux s.data false)

/-- Final path component, what `pathlib` calls `name`. -/
def baseName (p : String) : String := (pySplit p '/').getLastD ""

def rfindDotAux : List Char → Nat → Option Nat → Option Nat
  | [], _, acc => acc
  | c :: cs, i, acc => rfindDotAux cs (i + 1) (if c = '.' then some i else acc)

/-- Index of the last dot, as Python `str.rfind('.')` (found case only). -/
def rfindDot (name : List Char) : Option Nat := rfindDotAux name 0 none

/-- Python `pathlib.PurePath.suffix`: from the last dot of the name, empty
when that dot is leading, trailing or absent. -/
def pySuffix (p : String) : String :=
  let name := (baseName p).data
  match rfindDot name with
  | some i => if 0 < i && i < name.length - 1 then String.mk (name.drop i) else ""
  | none => ""

/-- Python `pathlib.PurePath.stem`: the name with `pySuffix` removed. -/
def pyStem (p : String) : String :=
  let name := (baseName p).data
  match rfindDot name with
  | some i => if 0 < i && i < name.length - 1 then String.mk (name.take i) else String.mk name
  | none => String.mk name

/-! ### Frontmatter extraction (tests/test_frontmatter_titles.py,
`extract_existing_frontmatter`) -/

/-- Scan of `lines[1:]` with `enumerate(..., 1)` for the first line whose
stripped text is the closing `---` delimiter. -/
def findClose : List String → Nat → Option Nat
  | [], _ => none
  | l :: ls, i => if pyStrip l = "---" then some i else findClose ls (i + 1)

/-- `extract_existing_frontmatter(content)`: returns
`(frontmatter, remaining_content)`. -/
def extract_existing_frontmatter (content : String) : String × String :=
  if pyStarts (pyStrip content) "---" = false then ("", content)
  else
    let lines := pySplit content '\n'
    if pyStrip (lines.headD "") ≠ "---" then ("", content)
    else
      match findClose lines.tail 1 with
      | none => ("", content)
      | some endIdx =>
        (String.intercalate "\n" ((lines.drop 1).take (endIdx - 1)),
         String.intercalate "\n" (lines.drop (endIdx + 1)))

/-- First line of a document, the Python `content.split('\n')[0]`. -/
def firstLine (content : String) : String := (pySplit content '\n').headD ""

/-! ### Navigation tree and title extraction
(tests/test_frontmatter_titles.py, `extract_nav_titles`)

The mkdocs navigation value is a recursive union of dict, list and string;
it is modelled as three mutually inductive types so that the recursion of
the Python function is structural.  The accumulated `file_titles` dict is
used by the script only through item assignment, `update` and lookup, so it
is modelled extensionally as a function from path to optional title, for
which assignment and `update` have exactly the Python dict semantics. -/

mutual
inductive Nav where
  | str : String → Nav
  | list : NavList → Nav
  | dict : NavEntries → Nav
inductive NavList where
  | nil : NavList
  | cons : Nav → NavList → NavList
inductive NavEntries where
  | nil : NavEntries
  | cons : String → Nav → NavEntries → NavEntries
end

/-- The dict model: a lookup function. -/
def Titles := String → Option String

/-- The empty dict `{}`. -/
def emptyT : Titles := fun _ => none

/-- Python `d[k] = v`. -/
def dictInsert (d : Titles) (k v : String) : Titles :=
  fun q => if q = k then some v else d q

/-- Python `d.update(e)`: every key of `e` takes the value it has in `e`. -/
def dictUpdate (d e : Titles) : Titles :=
  fun q => match e q with
  | some v => some v
  | none => d q

/-- Title for a bare string leaf:
`Path(nav_item).stem` then `-` and `_` to spaces then `.title()`. -/
def deriveTitle (navItem : String) : String :=
  pyTitle (pyReplaceChar (pyReplaceChar (pyStem navItem) '-' ' ') '_' ' ')

mutual
/-- `extract_nav_titles(nav_item, base_path)` (the `base_path` argument is
threaded through the recursion and never used, as in the script). -/
def extract_nav_titles : Nav → String → Titles
  | .str s, _ => dictInsert emptyT s (deriveTitle s)
  | .list items, base => navListGo emptyT items base
  | .dict entries, base => navDictGo emptyT entries base
/-- The `for item in nav_item: file_titles.update(...)` loop. -/
def navListGo : Titles → NavList → String → Titles
  | acc, .nil, _ => acc
  | acc, .cons item rest, base =>
      navListGo (dictUpdate acc (extract_nav_titles item base)) rest base
/-- The `for title, content in nav_item.items()` loop: a string value is a
direct file mapping, a nested list or dict value is recursed into. -/
def navDictGo : Titles → NavEntries → String → Titles
  | acc, .nil, _ => acc
  | acc, .cons title (.str s) rest, base =>
      navDictGo (dictInsert acc s title) rest base
  | acc, .cons _ (.list items) rest, base =>
      navDictGo (dictUpdate acc (extract_nav_titles (.list items) base)) rest base
  | acc, .cons _ (.dict entries) rest, base =>
      navDictGo (dictUpdate acc (extract_nav_titles (.dict entries) base)) rest base
end

mutual
/-- The `(path, title)` contributions of a navigation value in traversal
order (the order in which the script writes them into `file_titles`). -/
def navContribs : Nav → List (String × String)
  | .str s => [(s, deriveTitle s)]
  | .list items => navListContribs items
  | .dict entries => navDictContribs entries
def navListContribs : NavList → List (String × String)
  | .nil => []
  | .cons item rest => navContribs item ++ navListContribs rest
def navDictContribs : NavEntries → List (String × String)
  | .nil => []
  | .cons title (.str s) rest => (s, title) :: navDictContribs rest
  | .cons _ (.list items) rest => navContribs (.list items) ++ navDictContribs rest
  | .cons _ (.dict entries) rest => navContribs (.dict entries) ++ navDictContribs rest
end

/-- Value of the last contribution for a path, in traversal order. -/
def lastVal (e : List (String × String)) (k : String) : Option String :=
  (e.reverse.find? (fun p => p.1 == k)).map (fun p => p.2)

/-- Left-biased choice on options. -/
def orO (a b : Option String) : Option String :=
  match a with
  | some v => some v
  | none => b

/-! ### Title validation (tests/test_frontmatter_titles.py,
`test_all_referenced_files_have_titles`)

The filesystem is an external collaborator and is modelled as a function
from resolved path to optional file content.  `yaml.safe_load` of a
frontmatter block is an external library call and is modelled as a function
giving its outcome for the script: a parse error, data without a usable
`title` key (including falsy data), or a title value. -/

/-- Outcome of `yaml.safe_load(frontmatter)` as the script consumes it. -/
inductive YamlOutcome where
  | err : String → YamlOutcome
  | noTitle : YamlOutcome
  | title : String → YamlOutcome

/-- A Python computation that either finishes or lets an exception escape. -/
inductive PyResult (α : Type) where
  | ok : α → PyResult α
  | exn : String → PyResult α
deriving DecidableEq

/-- Path resolution: try the repository root, then the `docs/` directory,
keeping the root path when neither exists. -/
def resolvePath (fs : String → Option String) (p : String) : String :=
  if (fs p).isSome then p
  else if (fs ("docs/" ++ p)).isSome then "docs/" ++ p
  else p

/-- The classification loop body: walks `file_titles.items()` in order and
accumulates `missing_files`, `files_without_titles` and
`files_with_wrong_titles` (file, expected, actual); a YAML parse error
raises immediately.  (A file read error also raises in the script; content
delivery is total in the filesystem model, so that branch has no
counterpart.) -/
def classifyFiles (fs : String → Option String) (yaml : String → YamlOutcome) :
    List (String × String) →
    PyResult (List String × List String × List (String × String × String))
  | [] => .ok ([], [], [])
  | (fps, expected) :: rest =>
    if pyStarts fps "http" then classifyFiles fs yaml rest
    else
      let fp := resolvePath fs fps
      if ¬ (pyLower (pySuffix fp) = ".md" ∨ pyLower (pySuffix fp) = ".markdown") then
        classifyFiles fs yaml rest
      else
        match fs fp with
        | none =>
          match classifyFiles fs yaml rest with
          | .ok (m, n, w) => .ok (fps :: m, n, w)
          | .exn e => .exn e
        | some content =>
          let fm := (extract_existing_frontmatter content).1
          if fm = "" then
            match classifyFiles fs yaml rest with
            | .ok (m, n, w) => .ok (m, fp :: n, w)
            | .exn e => .exn e
          else
            match yaml fm with
            | .err e => .exn ("Error parsing frontmatter in " ++ fp ++ ": " ++ e)
            | .noTitle =>
              match classifyFiles fs yaml rest with
              | .ok (m, n, w) => .ok (m, fp :: n, w)
              | .exn e => .exn e
            | .title actual =>
              if actual ≠ expected then
                match classifyFiles fs yaml rest with
                | .ok (m, n, w) => .ok (m, n, (fp, expected, actual) :: w)
                | .exn e => .exn e
              else classifyFiles fs yaml rest

/-- Result of the test run. -/
inductive ValidationResult where
  | yamlFailure : String → ValidationResult
  | reportFailure : List String → List String →
      List (String × String × String) → ValidationResult
  | success : ValidationResult
deriving DecidableEq

/-- The whole test: classify every referenced file, then build the `errors`
list (one aggregated block per non-empty category, each block formatted
from the full category list) and raise exactly when it is non-empty. -/
def validateTitles (fs : String → Option String) (yaml : String → YamlOutcome)
    (items : List (String × String)) : ValidationResult :=
  match classifyFiles fs yaml items with
  | .exn e => .yamlFailure e
  | .ok (m, n, w) =>
    if m ≠ [] ∨ n ≠ [] ∨ w ≠ [] then .reportFailure m n w else .success

/-! ### API-reference generator (generate_python_api_docs.py) -/

/-- Python `set.add` modelled on a duplicate-free list. -/
def setAdd (acc : List String) (x : String) : List String :=
  if x ∈ acc then acc else acc ++ [x]

/-- The set built by the loop body of `_find_container_modules`: for every
module with more than two dotted parts, every slice `parts[:i+1]` for
`i in range(2, len(parts))` that is neither a listed module nor the main
module and that has more than one sub-module in the list. -/
def containerModulesSet (module_list : List String) (main_module : String) :
    List String :=
  module_list.foldl (fun acc module =>
    let parts := pySplit module '.'
    if parts.length > 2 then
      (List.range (parts.length - 2)).foldl (fun acc j =>
        let container := String.intercalate "." (parts.take (j + 3))
        if container ∉ module_list ∧ container ≠ main_module then
          let sub_modules := module_list.filter
            (fun m => pyStarts m (container ++ "."))
          if sub_modules.length > 1 then setAdd acc container else acc
        else acc) acc
    else acc) []

/-- `_find_container_modules(module_list, main_module)`: the body builds
`container_modules` but the function has no return statement, so in Python
it returns `None` — modelled as `none`. -/
def find_container_modules (module_list : List String) (main_module : String) :
    Option (List String) :=
  let _container_modules := containerModulesSet module_list main_module
  none

/-- String comparison, as Python compares strings by code point. -/
def charsLe : List Char → List Char → Bool
  | [], _ => true
  | _ :: _, [] => false
  | a :: as, b :: bs => if a = b then charsLe as bs else decide (a < b)

def strLe (a b : String) : Bool := charsLe a.data b.data

def insertSorted (x : String) : List String → List String
  | [] => [x]
  | y :: ys => if strLe x y then x :: y :: ys else y :: insertSorted x ys

/-- Python `sorted` on strings (a stable sort; on strings any two sorts
with the code-point order agree, since equal strings are identical). -/
def pySorted (l : List String) : List String := l.foldr insertSorted []

/-- The four (or five) directive lines emitted per module, with the heading
level capped at 3 and `members: false` for the main module and for the
container modules. -/
def directiveLines (module main_module : String)
    (container_modules : List String) : List String :=
  let parts := pySplit module '.'
  let level := min (parts.length - 1) 3
  ["::: " ++ module, "    options:", "      heading_level: " ++ toString level] ++
    (if module = main_module ∨ module ∈ container_modules then
      ["      members: false"] else [])

/-- The final module order: sort the (already extended) list, then force the
main module to the front, inserting it when absent and moving it when
present. -/
def finalModuleOrder (module_list : List String) (main_module : String) :
    List String :=
  let sorted_modules := pySorted module_list
  if main_module ∉ module_list then main_module :: sorted_modules
  else main_module :: sorted_modules.erase main_module

/-- The content written for one category, given the extended module list:
`'\n'.join(content) + '\n'`. -/
def emitListing (module_list container_modules : List String)
    (main_module : String) : String :=
  String.intercalate "\n"
    ((finalModuleOrder module_list main_module).flatMap
      (fun m => directiveLines m main_module container_modules)) ++ "\n"

/-- One iteration of the category loop: compute the container modules, then
`module_list.extend(container_modules)` — which raises `TypeError` when the
helper returned `None` — and otherwise write `<category>.md`. -/
def emitCategory (module_list : List String) (category : String) :
    PyResult (String × String) :=
  let main_module := "strands." ++ category
  match find_container_modules module_list main_module with
  | none => .exn "TypeError"
  | some container_modules =>
    .ok (category ++ ".md",
      emitListing (module_list ++ container_modules) container_modules main_module)

/-- The category loop: files written before an exception, and the escaped
exception if any. -/
def processCategories : List (String × List String) →
    List String × Option String
  | [] => ([], none)
  | (category, module_list) :: rest =>
    match emitCategory module_list category with
    | .exn e => ([], some e)
    | .ok (fname, _) =>
      let (written, err) := processCategories rest
      (fname :: written, err)

/-- Dotted module name of a file:
`str(rel_path.with_suffix('')).replace('/', '.')`. -/
def pathToModule (p : String) : String :=
  let noExt := String.mk (p.data.take (p.data.length - (pySuffix p).data.length))
  pyReplaceChar noExt '/' '.'

/-- Module discovery: for every `*.py` file path (relative to the parent of
the sdk root, slash separated), skip names with a leading underscore,
convert the path to a dotted module, and keep it exactly when the import
probe succeeds; an `ImportError` just skips the module. -/
def discoverModules (files : List String) (importable : String → Bool) :
    List String :=
  match files with
  | [] => []
  | f :: rest =>
    if pyStarts (baseName f) "_" then discoverModules rest importable
    else
      let module := pathToModule f
      if importable module then module :: discoverModules rest importable
      else discoverModules rest importable

/-- `categories`: group the surviving modules by their second dotted part,
keeping insertion order of both categories and members. -/
def addToCategory : List (String × List String) → String → String →
    List (String × List String)
  | [], cat, m => [(cat, [m])]
  | (c, l) :: rest, cat, m =>
    if c = cat then (c, l ++ [m]) :: rest else (c, l) :: addToCategory rest cat m

def groupByCategory (modules : List String) : List (String × List String) :=
  modules.foldl (fun cats m =>
    match pySplit m '.' with
    | _ :: cat :: _ => addToCategory cats cat m
    | _ => cats) []

/-- The inputs of one `on_pre_build` run that come from the outside world:
whether `git clone` succeeds, whether `temp_python_sdk/src/strands` exists
after a failed clone, the `*.py` files found under the sdk root on success,
and the import probe. -/
structure BuildInput where
  cloneOk : Bool
  sdkPathAfterFail : Bool
  files : List String
  importable : String → Bool

/-- The externally visible effects of one `on_pre_build` run. -/
structure BuildResult where
  tempDirRemoved : Bool
  raised : Option String
  printedCloneFailure : Bool
  filesWritten : List String
deriving DecidableEq

/-- `on_pre_build`: a failed clone is caught, prints a message and returns
after removing the scratch directory only when the sdk path exists inside
it; on a successful clone the modules are discovered, grouped and emitted,
and the final cleanup runs only when no exception escaped the loop. -/
def on_pre_build (inp : BuildInput) : BuildResult :=
  if inp.cloneOk = false then
    { tempDirRemoved := inp.sdkPathAfterFail
      raised := none
      printedCloneFailure := true
      filesWritten := [] }
  else
    let modules := discoverModules inp.files inp.importable
    let cats := groupByCategory modules
    let (written, err) := processCategories cats
    match err with
    | some e =>
      { tempDirRemoved := false, raised := some e
        printedCloneFailure := false, filesWritten := written }
    | none =>
      { tempDirRemoved := true, raised := none
        printedCloneFailure := false, filesWritten := written }

/-! ### Helper lemmas -/

theorem find_container_modules_eq_none (module_list : List String)
    (main_module : String) :
    find_container_modules module_list main_module = none := rfl

theorem emitCategory_eq_exn (module_list : List String) (category : String) :
    emitCategory module_list category = .exn "TypeError" := rfl

theorem processCategories_cons_eq (c : String × List String)
    (cats : List (String × List String)) :
    processCategories (c :: cats) = ([], some "TypeError") := by
  cases c
  rfl

theorem extract_eq_self_of_firstLine_ne (s : String)
    (h : pyStrip (firstLine s) ≠ "---") :
    extract_existing_frontmatter s = ("", s) := by
  unfold extract_existing_frontmatter
  split
  · rfl
  · exact if_pos h

/-! ### Claims about the frontmatter extractor -/

/-- C3 counterexample: on the document `---\na\n---\n---\nb\n---` the
remaining body returned by `extract_existing_frontmatter` is `---\nb\n---`,
and re-running the extractor on it yields `("b", "")`, not an empty
frontmatter with the body unchanged — so the extractor is not idempotent on
every document. -/
theorem extract_frontmatter_not_idempotent :
    extract_existing_frontmatter "---\na\n---\n---\nb\n---"
      = ("a", "---\nb\n---")
    ∧ extract_existing_frontmatter "---\nb\n---" = ("b", "")
    ∧ extract_existing_frontmatter
        ((extract_existing_frontmatter "---\na\n---\n---\nb\n---").2)
      ≠ ("", (extract_existing_frontmatter "---\na\n---\n---\nb\n---").2) := by
  refine ⟨rfl, rfl, ?_⟩
  decide

/-- C3 (amended): re-running `extract_existing_frontmatter` on the returned
remaining body yields an empty frontmatter and that same body unchanged
whenever the remaining body does not itself open with a delimiter line
(its first line, stripped, is not `---`). -/
theorem extract_frontmatter_idempotent_amended (content : String)
    (h : pyStrip (firstLine ((extract_existing_frontmatter content).2)) ≠ "---") :
    extract_existing_frontmatter ((extract_existing_frontmatter content).2)
      = ("", (extract_existing_frontmatter content).2) :=
  extract_eq_self_of_firstLine_ne _ h

theorem extract_frontmatter_idempotent_amended_witness :
    pyStrip (firstLine ((extract_existing_frontmatter "---\nt: a\n---\nbody").2)) ≠ "---"
    ∧ extract_existing_frontmatter
        ((extract_existing_frontmatter "---\nt: a\n---\nbody").2)
      = ("", (extract_existing_frontmatter "---\nt: a\n---\nbody").2) :=
  ⟨by decide, extract_frontmatter_idempotent_amended "---\nt: a\n---\nbody" (by decide)⟩

/-- C5: `extract_existing_frontmatter` returns an empty frontmatter unless
the document's first line, up to surrounding whitespace, is exactly the
`---` marker; and when an opening marker is present but the scan of the
following lines finds no closing delimiter, it returns an empty frontmatter
with the whole document as the body. -/
theorem extract_frontmatter_contract (content : String) :
    ((extract_existing_frontmatter content).1 ≠ "" →
      pyStrip (firstLine content) = "---")
    ∧ (pyStrip (firstLine content) = "---" →
        findClose (pySplit content '\n').tail 1 = none →
        extract_existing_frontmatter content = ("", content)) := by
  constructor
  · intro h1
    by_contra h2
    rw [extract_eq_self_of_firstLine_ne content h2] at h1
    exact h1 rfl
  · intro h1 h2
    unfold extract_existing_frontmatter
    split
    · rfl
    · rw [if_neg (fun hne => hne h1)]
      rw [h2]

theorem extract_frontmatter_contract_witness :
    pyStrip (firstLine "---\nt: a\n---\nbody") = "---"
    ∧ extract_existing_frontmatter "---\nopen but never closed"
      = ("", "---\nopen but never closed") :=
  ⟨(extract_frontmatter_contract "---\nt: a\n---\nbody").1 (by decide),
   (extract_frontmatter_contract "---\nopen but never closed").2
     (by decide) (by decide)⟩

/-! ### Claims about the container-module inference -/

/-- C1: on the spec's own example the loop body of
`_find_container_modules` computes exactly the container set
`{pkg.tools.fs}` the claim describes, but the function has no return
statement, so the caller receives `None` and the merge of members and
containers never happens. -/
theorem container_inference_never_returned :
    containerModulesSet
        ["pkg.tools.fs.read", "pkg.tools.fs.write", "pkg.tools.net"]
        "pkg.tools"
      = ["pkg.tools.fs"]
    ∧ find_container_modules
        ["pkg.tools.fs.read", "pkg.tools.fs.write", "pkg.tools.net"]
        "pkg.tools"
      = none
    ∧ emitCategory
        ["strands.tools.fs.read", "strands.tools.fs.write", "strands.tools.net"]
        "tools"
      = .exn "TypeError" :=
  ⟨rfl, rfl, rfl⟩

/-- C2: `_find_container_modules` returns `None` on every input, and in
`on_pre_build` every category with a non-empty member list raises
`TypeError` at `module_list.extend(container_modules)`, so the category
loop writes no listing file at all. -/
theorem extend_none_raises (module_list : List String)
    (main_module category : String) (c : String × List String)
    (cats : List (String × List String)) :
    find_container_modules module_list main_module = none
    ∧ (module_list ≠ [] → emitCategory module_list category = .exn "TypeError")
    ∧ processCategories (c :: cats) = ([], some "TypeError") :=
  ⟨find_container_modules_eq_none module_list main_module,
   fun _ => emitCategory_eq_exn module_list category,
   processCategories_cons_eq c cats⟩

theorem extend_none_raises_witness :
    find_container_modules ["strands.tools.a"] "strands.tools" = none
    ∧ emitCategory ["strands.tools.a"] "tools" = .exn "TypeError"
    ∧ processCategories [("tools", ["strands.tools.a"])] = ([], some "TypeError") := by
  have h := extend_none_raises ["strands.tools.a"] "strands.tools" "tools"
    ("tools", ["strands.tools.a"]) []
  exact ⟨h.1, h.2.1 (by decide), h.2.2⟩

/-! ### Claims about the build hook -/

/-- C4 counterexample: when the clone fails and the failed clone left no
`temp_python_sdk/src/strands` path behind (the common partial-clone state),
`on_pre_build` takes the caught-failure path yet does not remove the
scratch directory — so the scratch directory is not removed on every
failure path, and partial scratch contents survive a clone failure. -/
theorem scratch_cleanup_counterexample :
    (on_pre_build ⟨false, false, [], fun _ => true⟩).printedCloneFailure = true
    ∧ (on_pre_build ⟨false, false, [], fun _ => true⟩).tempDirRemoved = false :=
  ⟨rfl, rfl⟩

/-- C4 (amended): the caught clone failure is never raised past the caller,
but the scratch directory is removed only when a failed clone happens to
leave the sdk path in place, or when a successful clone discovers no
category at all (with any non-empty category the `TypeError` of the
category loop escapes before the final cleanup). -/
theorem scratch_cleanup_amended (inp : BuildInput) :
    ((on_pre_build inp).tempDirRemoved = true ↔
      (inp.cloneOk = false ∧ inp.sdkPathAfterFail = true)
      ∨ (inp.cloneOk = true
          ∧ groupByCategory (discoverModules inp.files inp.importable) = []))
    ∧ (inp.cloneOk = false → (on_pre_build inp).raised = none) := by
  obtain ⟨cloneOk, sdkP, files, imp⟩ := inp
  cases cloneOk with
  | false =>
    refine ⟨?_, fun _ => rfl⟩
    cases sdkP <;> simp [on_pre_build]
  | true =>
    refine ⟨?_, fun h => by cases h⟩
    cases hc : groupByCategory (discoverModules files imp) with
    | nil => simp [on_pre_build, hc, processCategories]
    | cons c rest => simp [on_pre_build, hc, processCategories_cons_eq]

theorem scratch_cleanup_amended_witness :
    (on_pre_build ⟨false, true, [], fun _ => true⟩).tempDirRemoved = true
    ∧ (on_pre_build ⟨false, true, [], fun _ => true⟩).raised = none :=
  ⟨(scratch_cleanup_amended ⟨false, true, [], fun _ => true⟩).1.mpr
    (Or.inl ⟨rfl, rfl⟩),
   (scratch_cleanup_amended ⟨false, true, [], fun _ => true⟩).2 rfl⟩

/-- C8: a module appears in the surviving list exactly when some discovered
file without a leading-underscore name maps to it and its import probe
succeeds; a failed import only skips that module, the discovery of the
remaining candidates always completes. -/
theorem import_filter (files : List String) (importable : String → Bool)
    (m : String) :
    m ∈ discoverModules files importable ↔
      (∃ f ∈ files, pyStarts (baseName f) "_" = false ∧ pathToModule f = m)
      ∧ importable m = true := by
  induction files with
  | nil => simp [discoverModules]
  | cons f rest ih =>
    by_cases h1 : pyStarts (baseName f) "_"
    · rw [show discoverModules (f :: rest) importable
          = discoverModules rest importable by rw [discoverModules, if_pos h1]]
      rw [ih]
      constructor
      · rintro ⟨⟨g, hg, hgu, hgm⟩, him⟩
        exact ⟨⟨g, List.mem_cons_of_mem f hg, hgu, hgm⟩, him⟩
      · rintro ⟨⟨g, hg, hgu, hgm⟩, him⟩
        rcases List.mem_cons.mp hg with hgf | hgr
        · subst hgf
          rw [h1] at hgu
          cases hgu
        · exact ⟨⟨g, hgr, hgu, hgm⟩, him⟩
    · rw [Bool.not_eq_true] at h1
      by_cases h2 : importable (pathToModule f)
      · rw [show discoverModules (f :: rest) importable
            = pathToModule f :: discoverModules rest importable by
              rw [discoverModules, if_neg (by simp [h1]), if_pos h2]]
        rw [List.mem_cons, ih]
        constructor
        · rintro (hm | ⟨⟨g, hg, hgu, hgm⟩, him⟩)
          · exact ⟨⟨f, List.mem_cons_self f rest, h1, hm.symm⟩, hm ▸ h2⟩
          · exact ⟨⟨g, List.mem_cons_of_mem f hg, hgu, hgm⟩, him⟩
        · rintro ⟨⟨g, hg, hgu, hgm⟩, him⟩
          rcases List.mem_cons.mp hg with hgf | hgr
          · exact Or.inl (hgf ▸ hgm).symm
          · exact Or.inr ⟨⟨g, hgr, hgu, hgm⟩, him⟩
      · rw [show discoverModules (f :: rest) importable
            = discoverModules rest importable by
              rw [discoverModules, if_neg (by simp [h1]),
                if_neg h2]]
        rw [ih]
        constructor
        · rintro ⟨⟨g, hg, hgu, hgm⟩, him⟩
          exact ⟨⟨g, List.mem_cons_of_mem f hg, hgu, hgm⟩, him⟩
        · rintro ⟨⟨g, hg, hgu, hgm⟩, him⟩
          rcases List.mem_cons.mp hg with hgf | hgr
          · subst hgf
            rw [hgm] at h2
            exact absurd him h2
          · exact ⟨⟨g, hgr, hgu, hgm⟩, him⟩

/-- C6: when the classification loop finishes without a YAML parse failure,
the run raises the aggregated report carrying all missing files, all files
without a frontmatter title and all mismatched titles (with expected and
actual value) exactly when one of the three categories is non-empty, and
succeeds silently exactly when all three are empty. -/
theorem validation_aggregated_report (fs : String → Option String)
    (yaml : String → YamlOutcome) (items : List (String × String))
    (m n : List String) (w : List (String × String × String))
    (h : classifyFiles fs yaml items = .ok (m, n, w)) :
    (validateTitles fs yaml items = .reportFailure m n w ↔
      ¬(m = [] ∧ n = [] ∧ w = []))
    ∧ (validateTitles fs yaml items = .success ↔ m = [] ∧ n = [] ∧ w = []) := by
  have hval : validateTitles fs yaml items
      = if m ≠ [] ∨ n ≠ [] ∨ w ≠ [] then .reportFailure m n w else .success := by
    unfold validateTitles
    rw [h]
  by_cases hcond : m ≠ [] ∨ n ≠ [] ∨ w ≠ []
  · rw [if_pos hcond] at hval
    rw [hval]
    constructor
    · exact ⟨fun _ => by tauto, fun _ => rfl⟩
    · constructor
      · intro hf
        exact ValidationResult.noConfusion hf
      · intro he
        exact absurd hcond (by tauto)
  · rw [if_neg hcond] at hval
    rw [hval]
    have hall : m = [] ∧ n = [] ∧ w = [] := by tauto
    constructor
    · constructor
      · intro hf
        exact ValidationResult.noConfusion hf
      · intro hne
        exact absurd hall hne
    · exact ⟨fun _ => hall, fun _ => rfl⟩

theorem validation_aggregated_report_witness :
    validateTitles (fun _ => none) (fun _ => .noTitle) [("a.md", "T")]
      = .reportFailure ["a.md"] [] []
    ∧ validateTitles (fun _ => none) (fun _ => .noTitle) [] = .success := by
  constructor
  · exact (validation_aggregated_report (fun _ => none) (fun _ => .noTitle)
      [("a.md", "T")] ["a.md"] [] [] rfl).1.mpr (by simp)
  · exact (validation_aggregated_report (fun _ => none) (fun _ => .noTitle)
      [] [] [] [] rfl).2.mpr ⟨rfl, rfl, rfl⟩

/-! ### Claims about the navigation titles -/

theorem dictUpdate_apply (d e : Titles) (k : String) :
    dictUpdate d e k = Option.or (e k) (d k) := by
  unfold dictUpdate Option.or
  cases e k <;> rfl

theorem lastVal_append (a b : List (String × String)) (k : String) :
    lastVal (a ++ b) k = Option.or (lastVal b k) (lastVal a k) := by
  unfold lastVal
  rw [List.reverse_append, List.find?_append]
  cases List.find? (fun p => p.1 == k) b.reverse <;> simp [Option.or]

theorem lastVal_cons (p : String × String) (e : List (String × String))
    (k : String) :
    lastVal (p :: e) k
      = Option.or (lastVal e k) (if p.1 = k then some p.2 else none) := by
  rw [show p :: e = [p] ++ e from rfl, lastVal_append]
  congr 1
  by_cases h : p.1 = k
  · simp [lastVal, List.find?, h]
  · have hb : (p.1 == k) = false := by simp [h]
    simp [lastVal, List.find?, h, hb]

mutual
theorem extract_nav_titles_eq_lastVal (n : Nav) (base k : String) :
    extract_nav_titles n base k = lastVal (navContribs n) k := by
  cases n with
  | str s =>
    by_cases h : k = s
    · simp [extract_nav_titles, navContribs, dictInsert, emptyT, lastVal,
        List.find?, h]
    · have hb : (s == k) = false := by simp [Ne.symm h]
      simp [extract_nav_titles, navContribs, dictInsert, emptyT, lastVal,
        List.find?, h, hb]
  | list items =>
    rw [show extract_nav_titles (.list items) base = navListGo emptyT items base by
      simp [extract_nav_titles]]
    rw [navListGo_eq_lastVal emptyT items base k]
    simp [navContribs, emptyT]
  | dict entries =>
    rw [show extract_nav_titles (.dict entries) base = navDictGo emptyT entries base by
      simp [extract_nav_titles]]
    rw [navDictGo_eq_lastVal emptyT entries base k]
    simp [navContribs, emptyT]
termination_by sizeOf n

theorem navListGo_eq_lastVal (acc : Titles) (items : NavList) (base k : String) :
    navListGo acc items base k
      = Option.or (lastVal (navListContribs items) k) (acc k) := by
  cases items with
  | nil => simp [navListGo, navListContribs, lastVal]
  | cons item rest =>
    simp only [navListGo]
    rw [navListGo_eq_lastVal (dictUpdate acc (extract_nav_titles item base)) rest base k]
    rw [dictUpdate_apply, extract_nav_titles_eq_lastVal item base k]
    rw [show navListContribs (.cons item rest)
        = navContribs item ++ navListContribs rest by simp [navListContribs]]
    rw [lastVal_append, Option.or_assoc]
termination_by sizeOf items

theorem navDictGo_eq_lastVal (acc : Titles) (entries : NavEntries) (base k : String) :
    navDictGo acc entries base k
      = Option.or (lastVal (navDictContribs entries) k) (acc k) := by
  cases entries with
  | nil => simp [navDictGo, navDictContribs, lastVal]
  | cons title content rest =>
    cases content with
    | str s =>
      simp only [navDictGo]
      rw [navDictGo_eq_lastVal (dictInsert acc s title) rest base k]
      rw [show navDictContribs (.cons title (.str s) rest)
          = (s, title) :: navDictContribs rest by simp [navDictContribs]]
      rw [lastVal_cons, Option.or_assoc]
      congr 1
      by_cases h : k = s <;> simp [dictInsert, h, eq_comm, Option.or]
    | list items =>
      simp only [navDictGo]
      rw [navDictGo_eq_lastVal (dictUpdate acc (extract_nav_titles (.list items) base))
        rest base k]
      rw [dictUpdate_apply, extract_nav_titles_eq_lastVal (.list items) base k]
      rw [show navDictContribs (.cons title (.list items) rest)
          = navContribs (.list items) ++ navDictContribs rest by simp [navDictContribs]]
      rw [lastVal_append, Option.or_assoc]
    | dict es =>
      simp only [navDictGo]
      rw [navDictGo_eq_lastVal (dictUpdate acc (extract_nav_titles (.dict es) base))
        rest base k]
      rw [dictUpdate_apply, extract_nav_titles_eq_lastVal (.dict es) base k]
      rw [show navDictContribs (.cons title (.dict es) rest)
          = navContribs (.dict es) ++ navDictContribs rest by simp [navDictContribs]]
      rw [lastVal_append, Option.or_assoc]
termination_by sizeOf entries
end

/-- C9: a bare string leaf is mapped to the title derived from it, and the
derivation — filename stem, hyphens and underscores to spaces, title
case — sends `foo-bar_baz.md` to `Foo Bar Baz`. -/
theorem bare_leaf_title (s base : String) :
    extract_nav_titles (.str s) base s = some (deriveTitle s)
    ∧ deriveTitle "foo-bar_baz.md" = "Foo Bar Baz" := by
  constructor
  · simp [extract_nav_titles, dictInsert, emptyT]
  · rfl

/-- C10: for every navigation tree, the title mapping associates each path
with the value of the last `(path, title)` contribution in traversal
order — so when the same path appears under two different labels the later
occurrence wins. -/
theorem nav_title_last_write_wins (n : Nav) (base p : String) :
    extract_nav_titles n base p = lastVal (navContribs n) p :=
  extract_nav_titles_eq_lastVal n base p

/-- C7: the category loop raises `TypeError` before any listing is
emitted, so no emitted listing exists; in the (dead) emission code the
sorted merged list gets the main module forced to the front — moved when
present, inserted when absent — and the main module and the container
modules carry `members: false` while other modules do not. -/
theorem listing_order_unreachable :
    emitCategory ["strands.tools.x.a", "strands.tools.x.b", "strands.tools"]
        "tools"
      = .exn "TypeError"
    ∧ finalModuleOrder
        ["strands.tools.x.a", "strands.tools.x.b", "strands.tools",
          "strands.tools.x"] "strands.tools"
      = ["strands.tools", "strands.tools.x", "strands.tools.x.a",
          "strands.tools.x.b"]
    ∧ finalModuleOrder ["strands.tools.x.a"] "strands.tools"
      = ["strands.tools", "strands.tools.x.a"]
    ∧ directiveLines "strands.tools" "strands.tools" ["strands.tools.x"]
      = ["::: strands.tools", "    options:", "      heading_level: 1",
          "      members: false"]
    ∧ directiveLines "strands.tools.x" "strands.tools" ["strands.tools.x"]
      = ["::: strands.tools.x", "    options:", "      heading_level: 2",
          "      members: false"]
    ∧ directiveLines "strands.tools.x.a" "strands.tools" ["strands.tools.x"]
      = ["::: strands.tools.x.a", "    options:", "      heading_level: 3"] :=
  ⟨rfl, rfl, rfl, rfl, rfl, rfl⟩

end StrandsDocs
